import Mathlib

/-!
Verification of the command dispatch pipeline in `src/bridge/ui_commands.rs`.

The embedding follows the source file closely:
* `UiCommand` mirrors the `UiCommand` enum (unsigned integers become `Nat`,
  the `as i64` casts become `Int.ofNat`).
* `UiCommand.ok_to_drop` mirrors the classifier.
* `UiCommand.execute` mirrors the `execute` method as a pure function from the
  command, an oracle of remote-call results and the OS-integration collaborator
  results, to the list of emitted events together with the outcome of the task
  (`normal` return versus `expect` panic).
* `coalesceIter`, `seqRun` and `routerRun` model one iteration of the
  coalescing dispatcher loop and complete runs of the sequential dispatcher
  and router loops over the commands buffered in their channels.
* `Step` is a small-step relation over the whole pipeline used for the
  shutdown-flag invariant.
-/

inductive UiCommand where
  | Quit
  | Resize (width : Nat) (height : Nat)
  | Keyboard (text : String)
  | MouseButton (action : String) (grid_id : Nat) (position : Nat × Nat)
  | Scroll (direction : String) (grid_id : Nat) (position : Nat × Nat)
  | Drag (grid_id : Nat) (position : Nat × Nat)
  | FileDrop (path : String)
  | FocusLost
  | FocusGained
  | RegisterRightClick
  | UnregisterRightClick
deriving DecidableEq, Repr

/-- Mirrors `UiCommand::ok_to_drop` (ui_commands.rs lines 49-56): Resize,
Scroll and Drag match the `true` arm, the wildcard arm yields `false`. -/
def UiCommand.ok_to_drop : UiCommand → Bool
  | UiCommand.Resize _ _ => true
  | UiCommand.Scroll _ _ _ => true
  | UiCommand.Drag _ _ => true
  | _ => false

/-- The constructor tag of a `UiCommand`, used to state that classification
depends only on the variant tag, never on payload values. -/
def UiCommand.tagOf : UiCommand → Nat
  | UiCommand.Quit => 0
  | UiCommand.Resize _ _ => 1
  | UiCommand.Keyboard _ => 2
  | UiCommand.MouseButton _ _ _ => 3
  | UiCommand.Scroll _ _ _ => 4
  | UiCommand.Drag _ _ => 5
  | UiCommand.FileDrop _ => 6
  | UiCommand.FocusLost => 7
  | UiCommand.FocusGained => 8
  | UiCommand.RegisterRightClick => 9
  | UiCommand.UnregisterRightClick => 10

/-- One remote call issued against the neovim session, with the arguments as
passed at the call site in `execute`. -/
inductive RemoteCall where
  | command (cmd : String)
  | ui_try_resize (width : Int) (height : Int)
  | input (keys : String)
  | input_mouse (button : String) (action : String) (modifier : String)
      (grid : Int) (row : Int) (col : Int)
  | err_writeln (msg : String)
deriving DecidableEq, Repr

/-- An observable event of one `execute` invocation: a remote call being
issued, or a log line. -/
inductive ExecEvent where
  | call (c : RemoteCall)
  | logTrace (msg : String)
  | logError (msg : String)
deriving DecidableEq, Repr

/-- How one `execute` invocation ends: a normal return, or a panic raised by
`.expect(msg)` on a failed remote call. -/
inductive ExecOutcome where
  | normal
  | panicked (msg : String)
deriving DecidableEq, Repr

/-- Modelled from the spec: the remote session collaborator (the `Neovim`
handle, not part of src/) accepts each call and reports success or failure;
the oracle records which calls succeed. -/
structure NvimApi where
  callOk : RemoteCall → Bool

/-- Modelled from the spec: the OS-integration collaborator
(`windows_utils`, not part of src/) exposes register/unregister requests
"each returning a success boolean". -/
structure OsIntegration where
  unregister_rightclick : Bool
  register_rightclick_directory : Bool
  register_rightclick_file : Bool
deriving DecidableEq, Repr

def msg_unreg_prev : String :=
  "Could not unregister previous menu item. Possibly already registered or not running as Admin?"

def msg_reg_dir : String :=
  "Could not register directory context menu item. Possibly already registered or not running as Admin?"

def msg_reg_file : String :=
  "Could not register file context menu item. Possibly already registered or not running as Admin?"

def msg_unreg_all : String :=
  "Could not remove context menu items. Possibly already removed or not running as Admin?"

def focus_lost_cmd : String :=
  "if exists(\x27#FocusLost\x27) | doautocmd <nomodeline> FocusLost | endif"

def focus_gained_cmd : String :=
  "if exists(\x27#FocusGained\x27) | doautocmd <nomodeline> FocusGained | endif"

/-- Mirrors `UiCommand::execute` (ui_commands.rs lines 58-156). Each arm
issues the calls of the source arm in order; `.ok()` discards the result,
`.expect(msg)` panics with `msg` when the call fails. The windows-only
`RegisterRightClick` arm reproduces the source conditions verbatim: the
unregister step warns under `if unregister_rightclick()`, the two register
steps warn under `if !register_...()`. -/
def UiCommand.execute (c : UiCommand) (nvim : NvimApi) (os : OsIntegration) :
    List ExecEvent × ExecOutcome :=
  match c with
  | UiCommand.Quit =>
      ([ExecEvent.call (RemoteCall.command ("qa!"))], ExecOutcome.normal)
  | UiCommand.Resize width height =>
      let call := RemoteCall.ui_try_resize (Int.ofNat (Nat.max width 10))
        (Int.ofNat (Nat.max height 3))
      ([ExecEvent.call call],
       if nvim.callOk call then ExecOutcome.normal
       else ExecOutcome.panicked ("Resize failed"))
  | UiCommand.Keyboard input_command =>
      let call := RemoteCall.input input_command
      ([ExecEvent.logTrace ("Keyboard Input Sent: " ++ input_command),
        ExecEvent.call call],
       if nvim.callOk call then ExecOutcome.normal
       else ExecOutcome.panicked ("Input failed"))
  | UiCommand.MouseButton action grid_id position =>
      let call := RemoteCall.input_mouse ("left") action ("")
        (Int.ofNat grid_id) (Int.ofNat position.2) (Int.ofNat position.1)
      ([ExecEvent.call call],
       if nvim.callOk call then ExecOutcome.normal
       else ExecOutcome.panicked ("Mouse Input Failed"))
  | UiCommand.Scroll direction grid_id position =>
      let call := RemoteCall.input_mouse ("wheel") direction ("")
        (Int.ofNat grid_id) (Int.ofNat position.2) (Int.ofNat position.1)
      ([ExecEvent.call call],
       if nvim.callOk call then ExecOutcome.normal
       else ExecOutcome.panicked ("Mouse Scroll Failed"))
  | UiCommand.Drag grid_id position =>
      let call := RemoteCall.input_mouse ("left") ("drag") ("")
        (Int.ofNat grid_id) (Int.ofNat position.2) (Int.ofNat position.1)
      ([ExecEvent.call call],
       if nvim.callOk call then ExecOutcome.normal
       else ExecOutcome.panicked ("Mouse Drag Failed"))
  | UiCommand.FocusLost =>
      let call := RemoteCall.command focus_lost_cmd
      ([ExecEvent.call call],
       if nvim.callOk call then ExecOutcome.normal
       else ExecOutcome.panicked ("Focus Lost Failed"))
  | UiCommand.FocusGained =>
      let call := RemoteCall.command focus_gained_cmd
      ([ExecEvent.call call],
       if nvim.callOk call then ExecOutcome.normal
       else ExecOutcome.panicked ("Focus Gained Failed"))
  | UiCommand.FileDrop path =>
      ([ExecEvent.call (RemoteCall.command ("e " ++ path))], ExecOutcome.normal)
  | UiCommand.RegisterRightClick =>
      let step1 :=
        if os.unregister_rightclick then
          [ExecEvent.call (RemoteCall.err_writeln msg_unreg_prev),
           ExecEvent.logError msg_unreg_prev]
        else []
      let step2 :=
        if os.register_rightclick_directory then []
        else
          [ExecEvent.call (RemoteCall.err_writeln msg_reg_dir),
           ExecEvent.logError msg_reg_dir]
      let step3 :=
        if os.register_rightclick_file then []
        else
          [ExecEvent.call (RemoteCall.err_writeln msg_reg_file),
           ExecEvent.logError msg_reg_file]
      (step1 ++ step2 ++ step3, ExecOutcome.normal)
  | UiCommand.UnregisterRightClick =>
      (if os.unregister_rightclick then ([], ExecOutcome.normal)
       else
         ([ExecEvent.call (RemoteCall.err_writeln msg_unreg_all),
           ExecEvent.logError msg_unreg_all], ExecOutcome.normal))

/-- How one iteration of a dispatcher loop ends. -/
inductive LoopStatus where
  | looping
  | blocked
  | terminated
  | panicked
deriving DecidableEq, Repr

/-- Result of one iteration of the coalescing dispatcher loop: the commands
handed off to spawned execution tasks, the commands still buffered in the
droppable channel, and how the iteration ended. -/
structure CoalesceResult where
  handoffs : List UiCommand
  queue : List UiCommand
  status : LoopStatus
deriving DecidableEq, Repr

/-- Mirrors the `while let Ok(new_latest) = droppable_receiver.try_recv()`
drain loop (ui_commands.rs lines 172-174): starting from the command returned
by `recv`, each further buffered command replaces `latest`. -/
def coalesceDrain (latest : UiCommand) (buffered : List UiCommand) : UiCommand :=
  buffered.foldl (fun _ new_latest => new_latest) latest

/-- Mirrors one iteration of the coalescing dispatcher task
(ui_commands.rs lines 166-180): first the `droppable_running` flag check
(`break` when clear), then a blocking `recv` (panic via `expect` when the
channel is closed and empty, block when open and empty), then the non-blocking
drain, then exactly one `tokio::spawn` hand-off for the retained command. -/
def coalesceIter (droppable_running : Bool) (queue : List UiCommand)
    (closed : Bool) : CoalesceResult :=
  if !droppable_running then
    { handoffs := [], queue := queue, status := LoopStatus.terminated }
  else
    match queue with
    | [] =>
        if closed then { handoffs := [], queue := [], status := LoopStatus.panicked }
        else { handoffs := [], queue := [], status := LoopStatus.blocked }
    | first :: rest =>
        { handoffs := [coalesceDrain first rest], queue := [],
          status := LoopStatus.looping }

/-- Begin/end markers of one inline `execute(..).await` in the sequential
dispatcher; `execEnd c` follows `execStart c` only once that execution has run
to completion. -/
inductive SeqEvent where
  | execStart (c : UiCommand)
  | execEnd (c : UiCommand)
deriving DecidableEq, Repr

/-- Mirrors the sequential (non-droppable) dispatcher task
(ui_commands.rs lines 185-201) run over the commands buffered in its channel,
whose sender has been dropped: the flag check at the top of each iteration,
then `recv`, which yields the buffered commands in order and returns `Err`
once the channel is drained, upon which the task stores `false` into the flag
and breaks. Each received command is executed to completion inline before the
next `recv`. Returns the event trace and the final value of the flag. -/
def seqRun (non_droppable_running : Bool) (queue : List UiCommand) :
    List SeqEvent × Bool :=
  if !non_droppable_running then ([], non_droppable_running)
  else
    match queue with
    | [] => ([], false)
    | c :: rest =>
        let next := seqRun non_droppable_running rest
        (SeqEvent.execStart c :: SeqEvent.execEnd c :: next.1, next.2)

/-- Mirrors the router task (ui_commands.rs lines 203-223) run over the
commands buffered in the raw inbound channel, whose sender has been dropped:
the flag check, then `recv`; on `Ok` the command is sent to the droppable
channel when `ok_to_drop` holds and to the non-droppable channel otherwise;
on `Err` the task stores `false` into the flag and breaks. Each send is
recorded as a pair of the target (`true` for the droppable channel) and the
forwarded command. Returns the send trace and the final value of the flag. -/
def routerRun (running : Bool) (inbound : List UiCommand) :
    List (Bool × UiCommand) × Bool :=
  if !running then ([], running)
  else
    match inbound with
    | [] => ([], false)
    | c :: rest =>
        let next := routerRun running rest
        ((c.ok_to_drop, c) :: next.1, next.2)

/-- The shared state of the pipeline: the `running` flag, the three channels
(the two internal ones close exactly when the router task has ended, since it
owns their senders), and which of the three tasks have ended. -/
structure PipeState where
  running : Bool
  inQ : List UiCommand
  inClosed : Bool
  dropQ : List UiCommand
  guarQ : List UiCommand
  routerDone : Bool
  seqDone : Bool
  coalDone : Bool
deriving DecidableEq, Repr

/-- Small-step relation over the pipeline, one constructor per way any of the
three tasks of `start_command_processors` can advance, plus the external
closure of the raw inbound channel. The internal channels are closed exactly
when `routerDone` holds, because the router task owns both senders. -/
inductive Step : PipeState → PipeState → Prop where
  | closeInbound (s : PipeState) :
      s.inClosed = false →
      Step s { s with inClosed := true }
  | routerBreak (s : PipeState) :
      s.running = false → s.routerDone = false →
      Step s { s with routerDone := true }
  | routerSend (s : PipeState) (c : UiCommand) (rest : List UiCommand) :
      s.running = true → s.routerDone = false → s.inQ = c :: rest →
      Step s { s with
        inQ := rest,
        dropQ := if c.ok_to_drop then s.dropQ ++ [c] else s.dropQ,
        guarQ := if c.ok_to_drop then s.guarQ else s.guarQ ++ [c] }
  | routerClosed (s : PipeState) :
      s.running = true → s.routerDone = false → s.inQ = [] → s.inClosed = true →
      Step s { s with running := false, routerDone := true }
  | seqBreak (s : PipeState) :
      s.running = false → s.seqDone = false →
      Step s { s with seqDone := true }
  | seqExec (s : PipeState) (c : UiCommand) (rest : List UiCommand) :
      s.running = true → s.seqDone = false → s.guarQ = c :: rest →
      Step s { s with guarQ := rest }
  | seqClosed (s : PipeState) :
      s.running = true → s.seqDone = false → s.guarQ = [] → s.routerDone = true →
      Step s { s with running := false, seqDone := true }
  | coalBreak (s : PipeState) :
      s.running = false → s.coalDone = false →
      Step s { s with coalDone := true }
  | coalHandoff (s : PipeState) (c : UiCommand) (rest : List UiCommand) :
      s.running = true → s.coalDone = false → s.dropQ = c :: rest →
      Step s { s with dropQ := [] }
  | coalPanic (s : PipeState) :
      s.running = true → s.coalDone = false → s.dropQ = [] → s.routerDone = true →
      Step s { s with coalDone := true }

/-- Modelled from the spec: the pipeline starts with the shutdown flag unset
(`running = true`; the flag is created where the pipeline is started, outside
this source file), both internal channels empty and open, and all three tasks
live. -/
def initState (inbound : List UiCommand) : PipeState :=
  { running := true, inQ := inbound, inClosed := false, dropQ := [], guarQ := [],
    routerDone := false, seqDone := false, coalDone := false }

/-- A concrete pipeline state whose inbound channel is drained and closed. -/
def stateClosedInbound : PipeState :=
  { running := true, inQ := [], inClosed := true, dropQ := [], guarQ := [],
    routerDone := false, seqDone := false, coalDone := false }

/-- The state after the router observes the closed inbound channel from
`stateClosedInbound`. -/
def stateAfterRouterClose : PipeState :=
  { stateClosedInbound with running := false, routerDone := true }

theorem coalesceDrain_eq_getLast (first : UiCommand) (rest : List UiCommand) :
    coalesceDrain first rest =
      List.getLast (first :: rest) (List.cons_ne_nil first rest) := by
  induction rest generalizing first with
  | nil => rfl
  | cons b bs ih =>
      simpa [coalesceDrain] using ih b

/-- Claim C1: for a burst of commands buffered in the droppable channel before
the coalescing dispatcher consumes any of them, one iteration of the
dispatcher hands off exactly one command to a spawned execution, namely the
last-enqueued one; all the others are discarded (the queue is left empty and
no event other than the single hand-off is produced). -/
theorem c1_coalescing_thm (first : UiCommand) (rest : List UiCommand)
    (closed : Bool) :
    coalesceIter true (first :: rest) closed =
      { handoffs := [List.getLast (first :: rest) (List.cons_ne_nil first rest)],
        queue := [], status := LoopStatus.looping } := by
  simp [coalesceIter, coalesceDrain_eq_getLast]

/-- Claim C2: the sequential dispatcher executes the guaranteed commands in
exactly their arrival order, each execution running to completion (its end
marker emitted) before the next one starts, dropping and coalescing nothing;
when its channel closes it sets the shutdown flag (stores `false` into
`running`) and terminates. -/
theorem c2_sequential_thm (queue : List UiCommand) :
    seqRun true queue =
      (queue.flatMap (fun c => [SeqEvent.execStart c, SeqEvent.execEnd c]), false) := by
  induction queue with
  | nil => rfl
  | cons c rest ih => simp [seqRun, ih]

/-- Claim C3: the classifier `ok_to_drop` depends only on the variant tag of
the command, never on payload values, and it returns `true` exactly for the
Resize, Scroll and Drag variants. -/
theorem c3_classifier_thm :
    (∀ a b : UiCommand, a.tagOf = b.tagOf → a.ok_to_drop = b.ok_to_drop) ∧
    (∀ c : UiCommand, c.ok_to_drop = true ↔
      ((∃ w h, c = UiCommand.Resize w h) ∨
       (∃ d g p, c = UiCommand.Scroll d g p) ∨
       (∃ g p, c = UiCommand.Drag g p))) := by
  constructor
  · intro a b hab
    cases a <;> cases b <;> simp_all [UiCommand.tagOf, UiCommand.ok_to_drop]
  · intro c
    cases c <;> simp [UiCommand.ok_to_drop]

/-- Witness for C3 at concrete inputs: two Resize commands with different
payloads share a tag and classify identically. -/
theorem c3_classifier_witness :
    (UiCommand.Resize 5 1).ok_to_drop = (UiCommand.Resize 100 50).ok_to_drop :=
  c3_classifier_thm.1 (UiCommand.Resize 5 1) (UiCommand.Resize 100 50) (by decide)

/-- Claim C4: executing `Resize width height` issues exactly one remote
`ui_try_resize` call, with the width floored to 10 and the height floored to
3; in particular `Resize 5 1` issues `ui_try_resize 10 3`. -/
theorem c4_resize_thm (width height : Nat) (nvim : NvimApi) (os : OsIntegration) :
    ((UiCommand.Resize width height).execute nvim os).1 =
      [ExecEvent.call (RemoteCall.ui_try_resize (Int.ofNat (Nat.max width 10))
        (Int.ofNat (Nat.max height 3)))] ∧
    ((UiCommand.Resize 5 1).execute nvim os).1 =
      [ExecEvent.call (RemoteCall.ui_try_resize 10 3)] := by
  constructor <;> simp [UiCommand.execute]

/-- Counterexample to claim C5 as stated: the coalescing dispatcher stops
looping in a state where its droppable channel is open (`closed = false`) and
even non-empty, purely because the shared shutdown flag is observed clear,
while with the flag set the very same iteration hands a command off. So its
termination is not driven solely by channel closure and it does consult the
flag. -/
theorem c5_counterexample :
    coalesceIter false [UiCommand.Resize 100 50] false =
      { handoffs := [], queue := [UiCommand.Resize 100 50],
        status := LoopStatus.terminated } ∧
    coalesceIter true [UiCommand.Resize 100 50] false =
      { handoffs := [UiCommand.Resize 100 50], queue := [],
        status := LoopStatus.looping } := by
  constructor <;> rfl

/-- Claim C5 amended: the coalescing dispatcher checks the shared shutdown
flag at the top of every iteration and stops looping when it observes the
flag clear; apart from that, the only other way the loop ends is the panic on
`recv` when its droppable channel is closed and drained. -/
theorem c5_amended_thm (droppable_running : Bool) (queue : List UiCommand)
    (closed : Bool) :
    ((coalesceIter droppable_running queue closed).status = LoopStatus.terminated ↔
      droppable_running = false) ∧
    ((coalesceIter droppable_running queue closed).status = LoopStatus.panicked ↔
      (droppable_running = true ∧ queue = [] ∧ closed = true)) := by
  cases droppable_running <;> cases closed <;> cases queue <;>
    simp [coalesceIter]

/-- Claim C6: the shutdown flag starts in the running state (`running = true`)
at pipeline start, every step of the system preserves shutdown (once
`running = false` it stays `false`), and the only steps that move the flag to
the shut-down state are those in which a stage observes its inbound channel
drained and permanently closed (the router with the raw inbound channel, or
the sequential dispatcher with the guaranteed channel, closed when the router
task has ended). -/
theorem c6_shutdown_flag_thm :
    (∀ inbound : List UiCommand, (initState inbound).running = true) ∧
    (∀ s t : PipeState, Step s t →
      ((s.running = false → t.running = false) ∧
       (s.running = true → t.running = false →
         ((s.inQ = [] ∧ s.inClosed = true) ∨
          (s.guarQ = [] ∧ s.routerDone = true))))) := by
  refine ⟨fun _ => rfl, ?_⟩
  intro s t hst
  cases hst <;> simp_all

/-- Witness for C6 at a concrete step: from `stateClosedInbound` the router
observes its drained, closed inbound channel and performs the one transition
that sets the flag. -/
theorem c6_shutdown_flag_witness :
    (stateClosedInbound.running = false → stateAfterRouterClose.running = false) ∧
    (stateClosedInbound.running = true → stateAfterRouterClose.running = false →
      ((stateClosedInbound.inQ = [] ∧ stateClosedInbound.inClosed = true) ∨
       (stateClosedInbound.guarQ = [] ∧ stateClosedInbound.routerDone = true))) :=
  c6_shutdown_flag_thm.2 stateClosedInbound stateAfterRouterClose
    (Step.routerClosed stateClosedInbound rfl rfl rfl rfl)

/-- Claim C7: over a run of the router, every received command is sent exactly
once, in order (the sequence of forwarded commands equals the inbound
sequence), the target channel is the droppable one exactly when the command
classifies as droppable, and nothing is duplicated or discarded at this
stage; at inbound closure the router sets the shutdown flag. -/
theorem c7_router_thm (inbound : List UiCommand) :
    ((routerRun true inbound).1.map Prod.snd = inbound) ∧
    ((routerRun true inbound).1.map Prod.fst = inbound.map UiCommand.ok_to_drop) ∧
    ((routerRun true inbound).2 = false) := by
  induction inbound with
  | nil => exact ⟨rfl, rfl, rfl⟩
  | cons c rest ih =>
      refine ⟨?_, ?_, ?_⟩ <;> simp [routerRun, ih.1, ih.2.1, ih.2.2]

/-- Claim C8: executing `Quit` or `FileDrop path` never propagates a failure:
for every oracle of remote-call results (including any failing one) the
outcome is a normal return, and each issues its single remote command call
(`qa!`, resp. `e ` followed by the path). -/
theorem c8_besteffort_thm (nvim : NvimApi) (os : OsIntegration) (path : String) :
    ((UiCommand.Quit).execute nvim os).2 = ExecOutcome.normal ∧
    ((UiCommand.FileDrop path).execute nvim os).2 = ExecOutcome.normal ∧
    ((UiCommand.Quit).execute nvim os).1 =
      [ExecEvent.call (RemoteCall.command ("qa!"))] ∧
    ((UiCommand.FileDrop path).execute nvim os).1 =
      [ExecEvent.call (RemoteCall.command ("e " ++ path))] := by
  refine ⟨rfl, rfl, rfl, rfl⟩

/-- Claim C9 fails on the code: with every collaborator call succeeding
(`unregister_rightclick` reports success, both register steps succeed),
executing `RegisterRightClick` still emits the "could not unregister" warning
to the log and the remote error channel; and when the unregister step fails
(with the register steps succeeding) no warning at all is emitted. The
warning for the unregister step appears exactly when that step succeeds,
inverted from the claim; no failure aborts the execution. -/
theorem c9_register_rightclick_bug :
    ((UiCommand.RegisterRightClick).execute
        { callOk := fun _ => true }
        { unregister_rightclick := true, register_rightclick_directory := true,
          register_rightclick_file := true }).1 =
      [ExecEvent.call (RemoteCall.err_writeln msg_unreg_prev),
       ExecEvent.logError msg_unreg_prev] ∧
    ((UiCommand.RegisterRightClick).execute
        { callOk := fun _ => true }
        { unregister_rightclick := false, register_rightclick_directory := true,
          register_rightclick_file := true }).1 = [] ∧
    ((UiCommand.RegisterRightClick).execute
        { callOk := fun _ => true }
        { unregister_rightclick := false, register_rightclick_directory := true,
          register_rightclick_file := true }).2 = ExecOutcome.normal := by
  refine ⟨rfl, rfl, rfl⟩

/-- Claim C10: `MouseButton` always passes the hard-coded button kind `left`
to the remote mouse-input call, whatever its action string and payload, and
`Drag` always passes both `left` and the hard-coded action `drag`; each arm
issues exactly this one call, so no other button kind can be sent by these
two variants. -/
theorem c10_left_button_thm (action : String) (grid_id : Nat) (p : Nat × Nat)
    (nvim : NvimApi) (os : OsIntegration) :
    ((UiCommand.MouseButton action grid_id p).execute nvim os).1 =
      [ExecEvent.call (RemoteCall.input_mouse ("left") action ("")
        (Int.ofNat grid_id) (Int.ofNat p.2) (Int.ofNat p.1))] ∧
    ((UiCommand.Drag grid_id p).execute nvim os).1 =
      [ExecEvent.call (RemoteCall.input_mouse ("left") ("drag") ("")
        (Int.ofNat grid_id) (Int.ofNat p.2) (Int.ofNat p.1))] := by
  refine ⟨rfl, rfl⟩
